import Mathlib

/-!
# Verification of the checkmate dual-agent orchestration core

Shallow embedding of the daemon's workspace guard (`daemon/src/tools.ts`,
class `WorkspaceTools`) and of the orchestration state machine
(`daemon/src/orchestrator.ts`, class `Orchestrator`), together with proofs
settling the specification claims about them.

Modelling conventions:
* Strings, lists and numbers are embedded directly; JS string/array helpers
  are translated to their Lean counterparts.
* JS truthiness on optional strings/arrays is made explicit (`jsStr`,
  `files_needed && files_needed.length > 0`, ...).
* Floating-point arithmetic appears only in `patchSimilarity`
  (a quotient of two small set cardinalities); it is embedded as `ℚ`.
  All concrete inputs used below produce quotients whose double rounding
  agrees with the exact rational comparison against `0.95`.
* External effects (LLM completions, `git apply`, sub-process execution)
  are supplied by an explicit oracle, indexed by call number, so that one
  run of the state machine is a pure function of the oracle.
-/

namespace Checkmate

/-! ## String helpers

Kernel-reducible (structurally recursive) versions of the string operations
the source uses (`split`, `startsWith`, `endsWith`, `join`), so that closed
theorems below can be checked by `decide`/`rfl`.  All separators occurring
in the source are single characters. -/

/-- `s.split(sep)` for a single-character separator (keeps empty pieces). -/
def splitChar (sep : Char) (s : List Char) : List (List Char) :=
  s.foldr (fun c acc =>
    match acc with
    | [] => [[c]]
    | cur :: rest => if c = sep then [] :: cur :: rest else (c :: cur) :: rest) [[]]

def strSplitOn (sep : Char) (s : String) : List String :=
  (splitChar sep s.data).map String.mk

def strStartsWith (s pre : String) : Bool :=
  pre.data.isPrefixOf s.data

def strEndsWith (s suf : String) : Bool :=
  suf.data.isSuffixOf s.data

/-- `array.join(sep)`. -/
def strJoin (sep : String) (l : List String) : String :=
  String.mk (List.intercalate sep.data (l.map String.data))

/-! ## A fragment of JavaScript regular expressions

`WorkspaceTools.isPathAllowed` builds a `RegExp` from an allow-list pattern
by `allowed.replace(/\x2a/g, '.\x2a')` and anchoring with `^...$`.  We embed
the fragment of JS regex syntax reachable from patterns made of literal
characters, `/`, `.`, `*`, `?` and `+`: atoms are `.` (any character) or a
literal character, and `*`/`?`/`+` are postfix quantifiers on the previous
atom.  Other regex metacharacters (classes, groups, alternation, escapes)
never occur in the patterns considered here and are outside the model.
Matching is full-match (the source anchors with `^` and `$`). -/

inductive RE where
  | fail
  | eps
  | char (c : Char)
  | any
  | seq (r1 r2 : RE)
  | alt (r1 r2 : RE)
  | star (r : RE)
deriving DecidableEq, Repr

def RE.nullable : RE → Bool
  | .fail => false
  | .eps => true
  | .char _ => false
  | .any => false
  | .seq a b => a.nullable && b.nullable
  | .alt a b => a.nullable || b.nullable
  | .star _ => true

def RE.deriv : RE → Char → RE
  | .fail, _ => .fail
  | .eps, _ => .fail
  | .char c, x => if x = c then .eps else .fail
  | .any, _ => .eps
  | .seq a b, x =>
      if a.nullable then .alt (.seq (a.deriv x) b) (b.deriv x)
      else .seq (a.deriv x) b
  | .alt a b, x => .alt (a.deriv x) (b.deriv x)
  | .star a, x => .seq (a.deriv x) (.star a)

/-- Brzozowski-derivative matcher; `true` iff `r` matches the whole string. -/
def RE.matchList (r : RE) (s : List Char) : Bool :=
  (s.foldl RE.deriv r).nullable

/-- Parse a regex string of the modelled fragment into a list of regexes,
one per atom (in reverse order); a quantifier wraps the preceding atom.
Returns `none` when a quantifier has no preceding atom (JS would throw a
`SyntaxError` when constructing such a `RegExp`; that exception path is not
modelled and never reached by the inputs considered here). -/
def compileRegexAux : List Char → List RE → Option (List RE)
  | [], acc => some acc
  | '.' :: rest, acc => compileRegexAux rest (RE.any :: acc)
  | '*' :: rest, a :: acc => compileRegexAux rest (RE.star a :: acc)
  | '*' :: _, [] => none
  | '?' :: rest, a :: acc => compileRegexAux rest (RE.alt RE.eps a :: acc)
  | '?' :: _, [] => none
  | '+' :: rest, a :: acc => compileRegexAux rest (RE.seq a (RE.star a) :: acc)
  | '+' :: _, [] => none
  | c :: rest, acc => compileRegexAux rest (RE.char c :: acc)

def seqAll (l : List RE) : RE := l.foldr RE.seq RE.eps

/-- Embeds `allowed.replace(/\x2a/g, '.\x2a')`: every `*` becomes `.*`. -/
def replaceStar (s : String) : String :=
  String.join (s.data.map (fun c => if c = '*' then ".*" else String.singleton c))

/-- Embeds `new RegExp('^' + allowedPattern + '$')` for the modelled fragment. -/
def compileGlob (pattern : String) : Option RE :=
  (compileRegexAux (replaceStar pattern).data []).map (fun acc => seqAll acc.reverse)

/-! ## Node `path.normalize` (posix)

`isPathAllowed` first normalizes its argument.  We model posix
normalization: split on `/`, drop empty and `.` components, resolve `..`,
rejoin, restoring a leading slash for absolute paths and a trailing slash
when the input had one. -/

def normComponents (isAbs : Bool) : List String → List String → List String
  | [], acc => acc.reverse
  | "" :: rest, acc => normComponents isAbs rest acc
  | "." :: rest, acc => normComponents isAbs rest acc
  | ".." :: rest, acc =>
      match acc with
      | [] => if isAbs then normComponents isAbs rest [] else normComponents isAbs rest [".."]
      | ".." :: _ => normComponents isAbs rest (".." :: acc)
      | _ :: tl => normComponents isAbs rest tl
  | c :: rest, acc => normComponents isAbs rest (c :: acc)

def pathNormalize (p : String) : String :=
  if p = "" then "." else
  let isAbs := strStartsWith p "/"
  let trail := strEndsWith p "/"
  let core := strJoin "/" (normComponents isAbs (strSplitOn '/' p) [])
  let base :=
    if isAbs then "/" ++ core
    else if core = "" then "." else core
  if trail && !(strEndsWith base "/") then base ++ "/" else base

/-! ## `WorkspaceTools.isPathAllowed` -/

/-- Source `tools.ts` lines 16-23:
```
const normalized = path.normalize(filePath);
return this.allowPaths.some(allowed =>
  new RegExp('^' + allowed.replace(/\x2a/g, '.\x2a') + '$').test(normalized)
  || normalized.startsWith(allowed));
```
(the source hoists the regex construction into two locals). -/
def isPathAllowed (allowPaths : List String) (filePath : String) : Bool :=
  let normalized := pathNormalize filePath
  allowPaths.any (fun allowed =>
    (match compileGlob allowed with
     | some re => re.matchList normalized.data
     | none => false)
    || strStartsWith normalized allowed)

/-! ## `WorkspaceTools.validatePatch` -/

/-- The line-level regex `[+-]{3} [ab]/(.+)` of `validatePatch`, anchored.
Returns the captured group. -/
def matchDiffHeader (line : String) : Option String :=
  match line.data with
  | c1 :: c2 :: c3 :: ' ' :: cab :: '/' :: rest =>
      if (c1 == '+' || c1 == '-') && (c2 == '+' || c2 == '-') && (c3 == '+' || c3 == '-')
          && (cab == 'a' || cab == 'b') && !rest.isEmpty then
        some (String.mk rest)
      else none
  | _ => none

/-- Source `tools.ts` lines 127-137: collect the paths of all `--- `/`+++ ` header
lines matching the diff-header regex, excluding `/dev/null`. -/
def extractPatchPaths (patch : String) : List String :=
  (strSplitOn '\n' patch).foldl (fun acc line =>
    if strStartsWith line "--- " || strStartsWith line "+++ " then
      match matchDiffHeader line with
      | some p => if p ≠ "/dev/null" then acc ++ [p] else acc
      | none => acc
    else acc) []

structure ValidationResult where
  valid : Bool
  error : Option String
deriving DecidableEq, Repr

/-- Source `tools.ts` lines 125-150: reject on the first extracted path that fails
the allow-list, otherwise accept. -/
def validatePatch (allowPaths : List String) (patch : String) : ValidationResult :=
  match (extractPatchPaths patch).find? (fun p => !isPathAllowed allowPaths p) with
  | some p => ⟨false, some ("Patch touches disallowed path: " ++ p)⟩
  | none => ⟨true, none⟩

/-! ## `Orchestrator.patchSimilarity` and `Orchestrator.detectOscillation`

`patchSimilarity` (orchestrator.ts lines 318-329) builds the JS `Set` of
lines of each patch, and divides the intersection size by the union size.
The JS number division is embedded as exact rational division; all inputs
used below give quotients whose IEEE-double comparison against the literal
`0.95` agrees with the rational one. -/

/-- `new Set(patch.split('\n'))`, as a duplicate-free list. -/
def patchLineSet (p : String) : List String :=
  (strSplitOn '\n' p).dedup

/-- `[...lines1].filter(x => lines2.has(x)).size`. -/
def interSize (p1 p2 : String) : Nat :=
  ((patchLineSet p1).filter (fun x => (patchLineSet p2).contains x)).length

/-- `new Set([...lines1, ...lines2]).size`. -/
def unionSize (p1 p2 : String) : Nat :=
  ((patchLineSet p1) ++ (patchLineSet p2)).dedup.length

/-- Source orchestrator.ts lines 318-329. -/
def patchSimilarity (p1 p2 : String) : ℚ :=
  if p1 = p2 then 1
  else (interSize p1 p2 : ℚ) / (unionSize p1 p2 : ℚ)

/-- Source orchestrator.ts lines 332-350: stuck iff the exact patch was seen
before, or there are at least two recorded patches and the Jaccard
similarity with the most recent one is strictly above `0.95`. -/
def detectOscillation (patchHistory : List String) (currentPatch : String) : Bool :=
  if patchHistory.contains currentPatch then true
  else if patchHistory.length ≥ 2 then
    decide (patchSimilarity (patchHistory.getLastD "") currentPatch > (0.95 : ℚ))
  else false

/-! ## `WorkspaceTools.applyPatch` (file-system view, for claim C6)

The workspace file system is a list of `(path, contents)` entries.  The
behaviour of the external `git apply --whitespace=nowarn` sub-process is a
parameter: given the file system it either succeeds with a modified file
system or throws (non-zero exit).  This mirrors `tools.ts` lines 155-182:
validate, write the patch to the fixed dotfile, run `git apply`, unlink the
dotfile on the success path; any exception is caught and reported as
`{success:false}` (there is no `finally` block). -/

abbrev FS := List (String × String)

def fsWrite (fs : FS) (name contents : String) : FS :=
  (name, contents) :: fs.filter (fun e => e.1 ≠ name)

def fsRemove (fs : FS) (name : String) : FS :=
  fs.filter (fun e => e.1 ≠ name)

def fsHas (fs : FS) (name : String) : Bool :=
  (fs.lookup name).isSome

/-- `path.join(this.workspaceRoot, '.dualagent-temp.patch')`, relative to
the workspace root. -/
def tempPatchFile : String := ".dualagent-temp.patch"

structure ApplyResult where
  success : Bool
  error : Option String
deriving DecidableEq, Repr

/-- Source `tools.ts` lines 155-182 (`applyPatch`). -/
def applyPatchFS (allowPaths : List String) (gitApply : FS → Except String FS)
    (patch : String) (fs : FS) : ApplyResult × FS :=
  if (validatePatch allowPaths patch).valid then
    match gitApply (fsWrite fs tempPatchFile patch) with
    | .ok fs2 => (⟨true, none⟩, fsRemove fs2 tempPatchFile)
    | .error e => (⟨false, some ("Failed to apply patch: " ++ e)⟩, fsWrite fs tempPatchFile patch)
  else (⟨false, (validatePatch allowPaths patch).error⟩, fs)

/-! ## Shared data model (`shared/src/types.ts`)

The zod schemas of `types.ts` describe plain records whose optional fields
may be absent.  We embed them as structures with `Option` fields; absence
is `none`. -/

inductive Severity where
  | critical | major | minor
deriving DecidableEq, BEq, Repr

inductive Verdict where
  | approve | request_changes | block
deriving DecidableEq, BEq, Repr

inductive BlockReason where
  | definite_bug | uncertainty | needs_human
deriving DecidableEq, BEq, Repr

structure Issue where
  severity : Severity
  description : String
  how_to_verify : Option String
  issue_id : Option String
  uncertainty : Option Bool
deriving DecidableEq, BEq, Repr

structure Review where
  verdict : Verdict
  issues : List Issue
  suggested_patch : Option String
  extra_tests : Option (List String)
  stopping : String
  block_reason : Option BlockReason
  diagnostics_needed : Option (List String)
deriving DecidableEq, BEq, Repr

structure BuilderMsg where
  files_needed : Option (List String)
  plan : Option (List String)
  patch : Option String
  tests : Option (List String)
  run : Option (List String)
  risks : Option (List String)
deriving DecidableEq, BEq, Repr

inductive ModDecision where
  | accept_builder | accept_reviewer | reject_both
deriving DecidableEq, BEq, Repr

structure ModeratorDecision where
  decision : ModDecision
  reasoning : String
deriving DecidableEq, BEq, Repr

inductive ArbiterOutcomeKind where
  | bug_confirmed | bug_refuted | test_invalid
deriving DecidableEq, BEq, Repr

structure ArbiterTestResult where
  test_added : Bool
  test_patch : Option String
  test_passed : Option Bool
  outcome : ArbiterOutcomeKind
  explanation : String
deriving DecidableEq, BEq, Repr

/-! ## `ReviewSchema.safeParse` (claim C7)

JSON values after `JSON.parse`, and the zod validation of `ReviewSchema` /
`IssueSchema` (`types.ts` lines 65-86): each declared key is looked up;
required keys must be present with the right type, `.optional()` keys may
be absent (but must have the right type when present), unknown keys are
ignored.  `ReviewSchema` declares no cross-field refinement.  The textual
layer of `Orchestrator.parseJSON` (fence stripping, `JSON.parse`) is below
this model; `parseReview` starts from the parsed JSON value. -/

inductive Json where
  | null
  | bool (b : Bool)
  | num (n : Int)
  | str (s : String)
  | arr (elems : List Json)
  | obj (fields : List (String × Json))

def getField (fields : List (String × Json)) (k : String) : Option Json :=
  fields.lookup k

def asStr : Json → Option String
  | .str s => some s
  | _ => none

def asBool : Json → Option Bool
  | .bool b => some b
  | _ => none

/-- Element-wise validation of a `z.array(...)`: every element must parse. -/
def mapOption (f : α → Option β) : List α → Option (List β)
  | [] => some []
  | a :: as => (f a).bind fun b => (mapOption f as).map (b :: ·)

def asStrList : Json → Option (List String)
  | .arr xs => mapOption asStr xs
  | _ => none

/-- A required key of a `z.object`: absent or ill-typed ⇒ failure. -/
def reqField (fields : List (String × Json)) (k : String) (p : Json → Option α) : Option α :=
  (getField fields k).bind p

/-- An `.optional()` key of a `z.object`: absent ⇒ `none`, present but
ill-typed ⇒ failure. -/
def optField (fields : List (String × Json)) (k : String) (p : Json → Option α) :
    Option (Option α) :=
  match getField fields k with
  | none => some none
  | some v => (p v).map some

def parseSeverity : Json → Option Severity
  | .str "critical" => some .critical
  | .str "major" => some .major
  | .str "minor" => some .minor
  | _ => none

def parseVerdict : Json → Option Verdict
  | .str "approve" => some .approve
  | .str "request_changes" => some .request_changes
  | .str "block" => some .block
  | _ => none

def parseBlockReason : Json → Option BlockReason
  | .str "definite_bug" => some .definite_bug
  | .str "uncertainty" => some .uncertainty
  | .str "needs_human" => some .needs_human
  | _ => none

/-- `IssueSchema.safeParse` (`types.ts` lines 65-71). -/
def parseIssue : Json → Option Issue
  | .obj fs => do
      let sev ← reqField fs "severity" parseSeverity
      let desc ← reqField fs "description" asStr
      let how ← optField fs "how_to_verify" asStr
      let iid ← optField fs "issue_id" asStr
      let unc ← optField fs "uncertainty" asBool
      pure ⟨sev, desc, how, iid, unc⟩
  | _ => none

def parseIssueList : Json → Option (List Issue)
  | .arr xs => mapOption parseIssue xs
  | _ => none

/-- `ReviewSchema.safeParse` (`types.ts` lines 76-84). -/
def parseReview : Json → Option Review
  | .obj fs => do
      let v ← reqField fs "verdict" parseVerdict
      let issues ← reqField fs "issues" parseIssueList
      let sp ← optField fs "suggested_patch" asStr
      let et ← optField fs "extra_tests" asStrList
      let stopping ← reqField fs "stopping" asStr
      let br ← optField fs "block_reason" parseBlockReason
      let dn ← optField fs "diagnostics_needed" asStrList
      pure ⟨v, issues, sp, et, stopping, br, dn⟩
  | _ => none

/-! Encoders used to show that every well-typed `Review` value — including
every value violating the spec's cross-field invariants — is produced by
`parseReview` on some input. -/

def encodeSeverity : Severity → Json
  | .critical => .str "critical"
  | .major => .str "major"
  | .minor => .str "minor"

def encodeVerdict : Verdict → Json
  | .approve => .str "approve"
  | .request_changes => .str "request_changes"
  | .block => .str "block"

def encodeBlockReason : BlockReason → Json
  | .definite_bug => .str "definite_bug"
  | .uncertainty => .str "uncertainty"
  | .needs_human => .str "needs_human"

def encOpt (k : String) (f : α → Json) : Option α → List (String × Json)
  | some a => [(k, f a)]
  | none => []

def encodeIssue (i : Issue) : Json :=
  .obj ([("severity", encodeSeverity i.severity), ("description", .str i.description)]
    ++ encOpt "how_to_verify" .str i.how_to_verify
    ++ encOpt "issue_id" .str i.issue_id
    ++ encOpt "uncertainty" .bool i.uncertainty)

def encodeStrList (l : List String) : Json :=
  .arr (l.map .str)

def encodeReview (r : Review) : Json :=
  .obj ([("verdict", encodeVerdict r.verdict),
         ("issues", .arr (r.issues.map encodeIssue))]
    ++ encOpt "suggested_patch" .str r.suggested_patch
    ++ encOpt "extra_tests" encodeStrList r.extra_tests
    ++ [("stopping", .str r.stopping)]
    ++ encOpt "block_reason" encodeBlockReason r.block_reason
    ++ encOpt "diagnostics_needed" encodeStrList r.diagnostics_needed)

/-! ## The orchestration state machine (`Orchestrator.runCycle`)

`runCycle` interleaves pure control logic with external effects: LLM
completions, `git apply`, and sub-process runs.  The effects are supplied
by an `Oracle`, indexed by call number (one independent counter per kind of
effect), so one run is a pure function of configuration and oracle.
Conventions:
* `status` and `stream_chunk` events are purely informational progress
  messages and are omitted from the modelled event trace; every other event
  kind is modelled.
* A parse failure of `parseJSON` (JSON error or schema error) is an oracle
  answer of `none`/`parseFail`; `parseJSON` itself emits one `error` event
  whose exact text depends on the underlying parser and is abbreviated here.
* The `while (iteration < max_iterations)` loop can run unboundedly many
  trips (the uncertainty branch decrements `iteration`), so the model takes
  a fuel bound on loop trips; an exhausted fuel yields the trace so far.
* `this.builderMessages` is appended to but never read; it is not modelled.
* The file contents fetched for `files_needed` are read into a local that
  the source never uses; only the `"Files provided: ..."` note survives. -/

structure CmdResult where
  stdout : String
  stderr : String
  exitCode : Int
deriving DecidableEq, BEq, Repr

inductive Event where
  | patchReady (patch : String)
  | testsOutput (r : CmdResult)
  | reviewReady (review : Review)
  | moderatorDecision (d : ModeratorDecision)
  | arbiterMode (issue : Issue)
  | arbiterResult (r : ArbiterTestResult)
  | diagnosticRun (commands : List String)
  | cycleComplete (success : Bool) (message : String) (iterations : Nat)
  | error (msg : String)
deriving DecidableEq, BEq, Repr

inductive ReviewMode where
  | always | selective | final_only
deriving DecidableEq, BEq, Repr

structure Config where
  test_command : String
  allow_paths : List String
  max_iterations : Nat
  review_mode : ReviewMode
  review_on_test_pass : Bool
  enable_moderator : Bool
  /-- `moderator_provider` and `moderator_model` are both present, so the
  constructor created `this.moderatorProvider` (when `enable_moderator`). -/
  moderator_creds : Bool
deriving Repr

/-- An LLM completion of the moderator: the call may throw, parse-fail, or
yield a decision. -/
inductive ModResponse where
  | exn (msg : String)
  | parseFail
  | ok (d : ModeratorDecision)

structure Oracle where
  /-- Result of parsing the n-th builder completion (`none` = parse failure). -/
  builder : Nat → Option BuilderMsg
  /-- Result of parsing the n-th reviewer completion. -/
  reviewer : Nat → Option Review
  /-- The n-th moderator completion. -/
  moderator : Nat → ModResponse
  /-- `runCommand` result of the n-th sub-process, given its argv. -/
  run : Nat → List String → CmdResult
  /-- Outcome of the n-th `git apply` (`none` = success, `some e` = threw). -/
  gitApply : Nat → Option String

/-- JS truthiness of an optional string (`undefined` and `''` are falsy). -/
def jsStr : Option String → Option String
  | some s => if s = "" then none else some s
  | none => none

/-- Stand-in for the parse-level `error` event emitted inside `parseJSON`
(lines 303 and 307); the real message carries the underlying parser text. -/
def parseErrorEvent : Event := .error "Failed to parse JSON"

def sevUpper : Severity → String
  | .critical => "CRITICAL"
  | .major => "MAJOR"
  | .minor => "MINOR"

/-- The open-issue line built from a review issue (lines 903-904, 961-962,
979-980). -/
def fmtIssue (i : Issue) : String :=
  "[" ++ sevUpper i.severity ++ "] " ++ i.description ++
    (match jsStr i.how_to_verify with
     | some h => " - Verify: " ++ h
     | none => "")

def defaultReview : Review := ⟨.approve, [], none, none, "", none, none⟩

/-- Source orchestrator.ts lines 353-370 (`findStuckIssues`). -/
def findStuckIssues (reviewHistory : List Review) : List Issue :=
  if reviewHistory.length < 2 then []
  else
    let lastReview := reviewHistory.getLastD defaultReview
    let prevReview := reviewHistory.dropLast.getLastD defaultReview
    lastReview.issues.filter (fun issue =>
      match jsStr issue.issue_id with
      | none => false
      | some _ =>
          prevReview.issues.any (fun prevIssue =>
            prevIssue.issue_id == issue.issue_id &&
              (prevIssue.severity == .critical || prevIssue.severity == .major)))

/-- Source orchestrator.ts lines 600-623 (`shouldRunReviewer`); the
status event of the selective skip branch is informational and omitted. -/
def shouldRunReviewer (cfg : Config) (iteration : Nat) (testsPass : Bool) : Bool :=
  match cfg.review_mode with
  | .always => true
  | .final_only => decide (iteration ≥ cfg.max_iterations)
  | .selective =>
      if iteration == 1 && testsPass && !cfg.review_on_test_pass then false
      else if !testsPass then true
      else if iteration ≥ cfg.max_iterations then true
      else iteration % 2 == 0

structure ModRun where
  events : List Event
  decision : Option ModeratorDecision
  mIdx : Nat

/-- Source orchestrator.ts lines 521-582 (`callModerator`). -/
def callModerator (cfg : Config) (orc : Oracle) (mIdx : Nat) : ModRun :=
  if cfg.enable_moderator && cfg.moderator_creds then
    match orc.moderator mIdx with
    | .exn m => ⟨[.error ("Moderator failed: " ++ m)], none, mIdx + 1⟩
    | .parseFail => ⟨[parseErrorEvent], none, mIdx + 1⟩
    | .ok d => ⟨[.moderatorDecision d], some d, mIdx + 1⟩
  else ⟨[.error "Moderator not configured but was requested"], none, mIdx⟩

def diagBlock (cmd : String) (r : CmdResult) : String :=
  "=== " ++ cmd ++ " ===\nExit code: " ++ toString r.exitCode ++
    "\nStdout: " ++ r.stdout ++ "\nStderr: " ++ r.stderr ++ "\n"

structure DiagRun where
  events : List Event
  output : String
  cIdx : Nat

def runDiagnosticsAux (orc : Oracle) : List String → Nat → List Event × List String × Nat
  | [], i => ([], [], i)
  | cmd :: rest, i =>
      let r := orc.run i (strSplitOn ' ' cmd)
      let rec' := runDiagnosticsAux orc rest (i + 1)
      (Event.testsOutput r :: rec'.1, diagBlock cmd r :: rec'.2.1, rec'.2.2)

/-- Source orchestrator.ts lines 373-393 (`runDiagnostics`). -/
def runDiagnostics (orc : Oracle) (commands : List String) (cIdx : Nat) : DiagRun :=
  let rec' := runDiagnosticsAux orc commands cIdx
  ⟨Event.diagnosticRun commands :: rec'.1, strJoin "\n\n" rec'.2.1, rec'.2.2⟩

/-- The RUN-state loop body, lines 777-786: execute each command, emit its
output, remember it as the last output, and break on the first non-zero
exit.  `last` is the value of `lastTestOutput` before the loop. -/
def runSeq (orc : Oracle) : List String → Nat → CmdResult → List Event × CmdResult × Nat
  | [], i, last => ([], last, i)
  | cmd :: rest, i, _ =>
      let r := orc.run i (strSplitOn ' ' cmd)
      if r.exitCode != 0 then ([Event.testsOutput r], r, i + 1)
      else
        let rec' := runSeq orc rest (i + 1) r
        (Event.testsOutput r :: rec'.1, rec'.2.1, rec'.2.2)

/-- Source orchestrator.ts lines 772-793: the RUN state.  Returns the
emitted events, the final `lastTestOutput`, and the next run index. -/
def runPhase (cfg : Config) (orc : Oracle) (runList : Option (List String)) (cIdx : Nat) :
    List Event × CmdResult × Nat :=
  if (runList.getD []) ≠ [] then
    runSeq orc (runList.getD []) cIdx ⟨"", "", 0⟩
  else
    let r := orc.run cIdx (strSplitOn ' ' cfg.test_command)
    ([Event.testsOutput r], r, cIdx + 1)

inductive ArbiterOutcome where
  | bug_confirmed | bug_refuted | failed
deriving DecidableEq, BEq, Repr

structure ArbiterRun where
  events : List Event
  outcome : ArbiterOutcome
  bIdx : Nat
  aIdx : Nat
  cIdx : Nat

/-- Source orchestrator.ts lines 396-483 (`runArbiterMode`).  The arbiter
prompt itself is unmodelled; the builder's reply comes from the oracle. -/
def runArbiterMode (cfg : Config) (orc : Oracle) (stuckIssue : Issue)
    (bIdx aIdx cIdx : Nat) : ArbiterRun :=
  match orc.builder bIdx with
  | none =>
      ⟨[Event.arbiterMode stuckIssue, parseErrorEvent,
        .error "Builder failed to provide arbiter test"],
       .failed, bIdx + 1, aIdx, cIdx⟩
  | some m =>
      match jsStr m.patch with
      | none =>
          ⟨[Event.arbiterMode stuckIssue, .error "Builder failed to provide arbiter test"],
           .failed, bIdx + 1, aIdx, cIdx⟩
      | some patch =>
          if (validatePatch cfg.allow_paths patch).valid then
            match orc.gitApply aIdx with
            | some e =>
                ⟨[Event.arbiterMode stuckIssue,
                  .error ("Failed to apply arbiter test: Failed to apply patch: " ++ e)],
                 .failed, bIdx + 1, aIdx + 1, cIdx⟩
            | none =>
                match m.run.getD [] with
                | [] => ⟨[Event.arbiterMode stuckIssue], .failed, bIdx + 1, aIdx + 1, cIdx⟩
                | cmd :: _ =>
                    ⟨[Event.arbiterMode stuckIssue,
                      .testsOutput (orc.run cIdx (strSplitOn ' ' cmd)),
                      .arbiterResult
                        ⟨true, some patch, some ((orc.run cIdx (strSplitOn ' ' cmd)).exitCode == 0),
                         if (orc.run cIdx (strSplitOn ' ' cmd)).exitCode == 0 then .bug_refuted
                         else .bug_confirmed,
                         if (orc.run cIdx (strSplitOn ' ' cmd)).exitCode == 0 then
                           "Test passed - bug does not exist as described. Reviewer must downgrade severity or withdraw issue."
                         else "Test failed - bug confirmed. Builder must fix the implementation."⟩],
                     if (orc.run cIdx (strSplitOn ' ' cmd)).exitCode == 0 then .bug_refuted
                     else .bug_confirmed, bIdx + 1, aIdx + 1, cIdx + 1⟩
          else
            ⟨[Event.arbiterMode stuckIssue,
              .error ("Invalid arbiter test patch: " ++
                (validatePatch cfg.allow_paths patch).error.getD "")],
             .failed, bIdx + 1, aIdx, cIdx⟩

structure CycleState where
  iteration : Nat
  lastPatch : String
  lastTestOutput : Option CmdResult
  openIssues : List String
  patchHistory : List String
  reviewHistory : List Review
  bIdx : Nat
  rIdx : Nat
  mIdx : Nat
  cIdx : Nat
  aIdx : Nat
deriving Repr

/-- Outcome of one trip through the `while` body: the events emitted, the
resulting state, and whether `runCycle` returned (`exited = true`) or the
body reached the loop bottom / a `continue` (`exited = false`). -/
structure StepResult where
  events : List Event
  state : CycleState
  exited : Bool

/-- A trip on which `runCycle` returned. -/
def StepResult.done (events : List Event) (state : CycleState) : StepResult :=
  ⟨events, state, true⟩

/-- A trip after which the `while` loop continues. -/
def StepResult.next (events : List Event) (state : CycleState) : StepResult :=
  ⟨events, state, false⟩

def StepResult.prepend (pre : List Event) (r : StepResult) : StepResult :=
  ⟨pre ++ r.events, r.state, r.exited⟩

def syntheticApproveReview : Review :=
  ⟨.approve, [], none, none, "Tests passed and review was skipped per configuration", none, none⟩

def oscillationFailure (i : Nat) : Event :=
  .cycleComplete false "Oscillation detected - agents cannot converge. Human intervention needed." i

def maxIterMsg (cfg : Config) (review : Review) : String :=
  "Reached max iterations (" ++ toString cfg.max_iterations ++ "). " ++ review.stopping

/-- The max-iteration handling at the bottom of the `request_changes`
branch, lines 988-1014. -/
def maxIterCheck (cfg : Config) (orc : Oracle) (st : CycleState) (i : Nat) (review : Review) :
    StepResult :=
  if i ≥ cfg.max_iterations then
    if cfg.enable_moderator && cfg.moderator_creds &&
        review.issues.any (fun iss => iss.severity == .critical || iss.severity == .major) then
      match (callModerator cfg orc st.mIdx).decision with
      | some d =>
          if d.decision == .accept_builder then
            .done ((callModerator cfg orc st.mIdx).events ++
              [.cycleComplete true ("Moderator resolved at max iterations: " ++ d.reasoning) i])
              {st with mIdx := (callModerator cfg orc st.mIdx).mIdx}
          else
            .done ((callModerator cfg orc st.mIdx).events ++
              [.cycleComplete false (maxIterMsg cfg review) i])
              {st with mIdx := (callModerator cfg orc st.mIdx).mIdx}
      | none =>
          .done ((callModerator cfg orc st.mIdx).events ++
            [.cycleComplete false (maxIterMsg cfg review) i])
            {st with mIdx := (callModerator cfg orc st.mIdx).mIdx}
    else .done [.cycleComplete false (maxIterMsg cfg review) i] st
  else .next [] st

/-- The open-issue list rebuilt from a review (lines 903-909 and 979-985):
the formatted issues plus the suggested patch when truthy. -/
def issuesFromReview (review : Review) : List String :=
  review.issues.map fmtIssue ++
    (match jsStr review.suggested_patch with
     | some sp => ["SUGGESTED_FIX:\n" ++ sp]
     | none => [])

/-- The INTERPRET-REVIEW part of the loop body, lines 869-1018. -/
def interpretReview (cfg : Config) (orc : Oracle) (st : CycleState) (i : Nat) (review : Review) :
    StepResult :=
  if review.verdict == .approve then
    .done [.cycleComplete true ("Implementation approved! " ++ review.stopping) i] st
  else if review.verdict == .block then
    if review.block_reason == some .uncertainty && review.diagnostics_needed.isSome then
      .next (runDiagnostics orc (review.diagnostics_needed.getD []) st.cIdx).events
        {st with cIdx := (runDiagnostics orc (review.diagnostics_needed.getD []) st.cIdx).cIdx,
                 openIssues := st.openIssues ++
                   ["DIAGNOSTICS RUN:\n" ++
                     (runDiagnostics orc (review.diagnostics_needed.getD []) st.cIdx).output],
                 iteration := i - 1}
    else if review.block_reason == some .definite_bug then
      if i ≥ cfg.max_iterations then
        .done [.cycleComplete false ("Max iterations reached. " ++ review.stopping) i]
          {st with openIssues := issuesFromReview review}
      else .next [] {st with openIssues := issuesFromReview review}
    else if review.block_reason == some .needs_human then
      .done [.cycleComplete false ("Reviewer blocked (needs human): " ++ review.stopping) i] st
    else
      -- an unhandled block shape (no block_reason, or uncertainty without a
      -- diagnostics_needed array) falls through every branch to the loop bottom
      .next [] st
  else if review.verdict == .request_changes then
    match findStuckIssues st.reviewHistory with
    | stuckIssue :: _ =>
        match (runArbiterMode cfg orc stuckIssue st.bIdx st.aIdx st.cIdx).outcome with
        | .bug_confirmed =>
            (maxIterCheck cfg orc
              {st with bIdx := (runArbiterMode cfg orc stuckIssue st.bIdx st.aIdx st.cIdx).bIdx,
                       aIdx := (runArbiterMode cfg orc stuckIssue st.bIdx st.aIdx st.cIdx).aIdx,
                       cIdx := (runArbiterMode cfg orc stuckIssue st.bIdx st.aIdx st.cIdx).cIdx,
                       openIssues :=
                         ["[CRITICAL] Arbiter-confirmed bug: " ++ stuckIssue.description,
                          "How to verify: " ++
                            (jsStr stuckIssue.how_to_verify).getD "See arbiter test"]}
              i review).prepend (runArbiterMode cfg orc stuckIssue st.bIdx st.aIdx st.cIdx).events
        | .bug_refuted =>
            (maxIterCheck cfg orc
              {st with bIdx := (runArbiterMode cfg orc stuckIssue st.bIdx st.aIdx st.cIdx).bIdx,
                       aIdx := (runArbiterMode cfg orc stuckIssue st.bIdx st.aIdx st.cIdx).aIdx,
                       cIdx := (runArbiterMode cfg orc stuckIssue st.bIdx st.aIdx st.cIdx).cIdx,
                       openIssues :=
                         (review.issues.filter
                           (fun iss => iss.issue_id != stuckIssue.issue_id)).map fmtIssue}
              i review).prepend (runArbiterMode cfg orc stuckIssue st.bIdx st.aIdx st.cIdx).events
        | .failed =>
            .done ((runArbiterMode cfg orc stuckIssue st.bIdx st.aIdx st.cIdx).events ++
              [.cycleComplete false "Arbiter mode failed - cannot resolve stuck issue" i])
              {st with bIdx := (runArbiterMode cfg orc stuckIssue st.bIdx st.aIdx st.cIdx).bIdx,
                       aIdx := (runArbiterMode cfg orc stuckIssue st.bIdx st.aIdx st.cIdx).aIdx,
                       cIdx := (runArbiterMode cfg orc stuckIssue st.bIdx st.aIdx st.cIdx).cIdx}
    | [] =>
        maxIterCheck cfg orc {st with openIssues := issuesFromReview review} i review
  else
    -- unreachable: the three verdicts are covered above
    .next [] st

def filesProvidedNote (fs : List String) : String :=
  "Files provided: " ++ strJoin ", " fs

/-- The open-issue list recorded on a failing test run (lines 801-803). -/
def failingTestIssues (r : CmdResult) : List String :=
  ["[CRITICAL] Tests failing - Exit code " ++ toString r.exitCode,
   "Stdout: " ++ r.stdout,
   "Stderr: " ++ r.stderr]

/-- One trip through the body of the `while` loop of `runCycle`
(orchestrator.ts lines 683-1018).  The source's running locals
(`iteration`, `lastPatch`, `lastTestOutput`, `openIssues`) and the
class-level histories are carried in the record updates; intermediate
values (`validation`, `applyResult`, test results) are written as repeated
pure applications instead of locals. -/
def cycleStep (cfg : Config) (orc : Oracle) (st : CycleState) : StepResult :=
  match orc.builder st.bIdx with
  | none =>
      .done [parseErrorEvent, .error "Builder produced invalid response"]
        {st with iteration := st.iteration + 1, bIdx := st.bIdx + 1}
  | some msg =>
      if (msg.files_needed.getD []) ≠ [] then
        .next []
          {st with iteration := st.iteration + 1, bIdx := st.bIdx + 1,
                   openIssues := st.openIssues ++ [filesProvidedNote (msg.files_needed.getD [])]}
      else
        match jsStr msg.patch with
        | none =>
            .done [.error "Builder did not provide a patch"]
              {st with iteration := st.iteration + 1, bIdx := st.bIdx + 1}
        | some patch =>
            if detectOscillation st.patchHistory patch then
              if cfg.enable_moderator && !st.reviewHistory.isEmpty then
                match (callModerator cfg orc st.mIdx).decision with
                | some d =>
                    if d.decision == .accept_builder then
                      .done (Event.patchReady patch :: (callModerator cfg orc st.mIdx).events ++
                        [.cycleComplete true ("Moderator resolved: " ++ d.reasoning)
                          (st.iteration + 1)])
                        {st with iteration := st.iteration + 1, bIdx := st.bIdx + 1,
                                 lastPatch := patch,
                                 mIdx := (callModerator cfg orc st.mIdx).mIdx}
                    else
                      .done (Event.patchReady patch :: (callModerator cfg orc st.mIdx).events ++
                        [oscillationFailure (st.iteration + 1)])
                        {st with iteration := st.iteration + 1, bIdx := st.bIdx + 1,
                                 lastPatch := patch,
                                 mIdx := (callModerator cfg orc st.mIdx).mIdx}
                | none =>
                    .done (Event.patchReady patch :: (callModerator cfg orc st.mIdx).events ++
                      [oscillationFailure (st.iteration + 1)])
                      {st with iteration := st.iteration + 1, bIdx := st.bIdx + 1,
                               lastPatch := patch,
                               mIdx := (callModerator cfg orc st.mIdx).mIdx}
              else
                .done [Event.patchReady patch, oscillationFailure (st.iteration + 1)]
                  {st with iteration := st.iteration + 1, bIdx := st.bIdx + 1, lastPatch := patch}
            else
              if !(validatePatch cfg.allow_paths patch).valid then
                .done [Event.patchReady patch,
                  .error ((validatePatch cfg.allow_paths patch).error.getD "")]
                  {st with iteration := st.iteration + 1, bIdx := st.bIdx + 1, lastPatch := patch,
                           patchHistory := st.patchHistory ++ [patch]}
              else
                match orc.gitApply st.aIdx with
                | some e =>
                    .done [Event.patchReady patch, .error ("Failed to apply patch: " ++ e)]
                      {st with iteration := st.iteration + 1, bIdx := st.bIdx + 1,
                               lastPatch := patch, patchHistory := st.patchHistory ++ [patch],
                               aIdx := st.aIdx + 1}
                | none =>
                    if !((runPhase cfg orc msg.run st.cIdx).2.1.exitCode == 0) then
                      if st.iteration + 1 ≥ cfg.max_iterations then
                        .done (Event.patchReady patch :: (runPhase cfg orc msg.run st.cIdx).1 ++
                          [.cycleComplete false "Max iterations reached with failing tests."
                            (st.iteration + 1)])
                          {st with iteration := st.iteration + 1, bIdx := st.bIdx + 1,
                                   lastPatch := patch, patchHistory := st.patchHistory ++ [patch],
                                   aIdx := st.aIdx + 1,
                                   cIdx := (runPhase cfg orc msg.run st.cIdx).2.2,
                                   lastTestOutput := some (runPhase cfg orc msg.run st.cIdx).2.1,
                                   openIssues :=
                                     failingTestIssues (runPhase cfg orc msg.run st.cIdx).2.1}
                      else
                        .next (Event.patchReady patch :: (runPhase cfg orc msg.run st.cIdx).1)
                          {st with iteration := st.iteration + 1, bIdx := st.bIdx + 1,
                                   lastPatch := patch, patchHistory := st.patchHistory ++ [patch],
                                   aIdx := st.aIdx + 1,
                                   cIdx := (runPhase cfg orc msg.run st.cIdx).2.2,
                                   lastTestOutput := some (runPhase cfg orc msg.run st.cIdx).2.1,
                                   openIssues :=
                                     failingTestIssues (runPhase cfg orc msg.run st.cIdx).2.1}
                    else
                      if shouldRunReviewer cfg (st.iteration + 1)
                          ((runPhase cfg orc msg.run st.cIdx).2.1.exitCode == 0) then
                        match orc.reviewer st.rIdx with
                        | none =>
                            .done (Event.patchReady patch :: (runPhase cfg orc msg.run st.cIdx).1
                                ++ [parseErrorEvent, .error "Reviewer produced invalid response"])
                              {st with iteration := st.iteration + 1, bIdx := st.bIdx + 1,
                                       lastPatch := patch,
                                       patchHistory := st.patchHistory ++ [patch],
                                       aIdx := st.aIdx + 1,
                                       cIdx := (runPhase cfg orc msg.run st.cIdx).2.2,
                                       lastTestOutput := some (runPhase cfg orc msg.run st.cIdx).2.1,
                                       rIdx := st.rIdx + 1}
                        | some review =>
                            (interpretReview cfg orc
                              {st with iteration := st.iteration + 1, bIdx := st.bIdx + 1,
                                       lastPatch := patch,
                                       patchHistory := st.patchHistory ++ [patch],
                                       aIdx := st.aIdx + 1,
                                       cIdx := (runPhase cfg orc msg.run st.cIdx).2.2,
                                       lastTestOutput := some (runPhase cfg orc msg.run st.cIdx).2.1,
                                       rIdx := st.rIdx + 1,
                                       reviewHistory := st.reviewHistory ++ [review]}
                              (st.iteration + 1) review).prepend
                              (Event.patchReady patch :: (runPhase cfg orc msg.run st.cIdx).1 ++
                                [.reviewReady review])
                      else
                        (interpretReview cfg orc
                          {st with iteration := st.iteration + 1, bIdx := st.bIdx + 1,
                                   lastPatch := patch,
                                   patchHistory := st.patchHistory ++ [patch],
                                   aIdx := st.aIdx + 1,
                                   cIdx := (runPhase cfg orc msg.run st.cIdx).2.2,
                                   lastTestOutput := some (runPhase cfg orc msg.run st.cIdx).2.1}
                          (st.iteration + 1) syntheticApproveReview).prepend
                          (Event.patchReady patch :: (runPhase cfg orc msg.run st.cIdx).1)
/-- The `while (iteration < this.config.max_iterations)` loop, with a fuel
bound on the number of trips. -/
def runCycleLoop (cfg : Config) (orc : Oracle) : Nat → CycleState → List Event × CycleState
  | 0, st => ([], st)
  | fuel + 1, st =>
      if st.iteration < cfg.max_iterations then
        if (cycleStep cfg orc st).exited then
          ((cycleStep cfg orc st).events, (cycleStep cfg orc st).state)
        else
          ((cycleStep cfg orc st).events ++
            (runCycleLoop cfg orc fuel (cycleStep cfg orc st).state).1,
           (runCycleLoop cfg orc fuel (cycleStep cfg orc st).state).2)
      else ([], st)

/-- The history reset at the top of `runCycle` (lines 673-681). -/
def initCycleState : CycleState := ⟨0, "", none, [], [], [], 0, 0, 0, 0, 0⟩

/-- Source orchestrator.ts lines 670-1021 (`runCycle`). -/
def runCycle (cfg : Config) (orc : Oracle) (fuel : Nat) : List Event × CycleState :=
  runCycleLoop cfg orc fuel initCycleState

/-! Event classifiers for the claims. -/

def Event.isTerminal : Event → Bool
  | .cycleComplete .. => true
  | .error _ => true
  | _ => false

def Event.isCycleComplete : Event → Bool
  | .cycleComplete .. => true
  | _ => false

def Event.isReviewReady : Event → Bool
  | .reviewReady _ => true
  | _ => false

def Event.isPatchReady : Event → Bool
  | .patchReady _ => true
  | _ => false

/-! ## Spec-side definitions

Definitions taken from the specification's words (not from the source), for
comparison against the embedded code. -/

/-- Spec §4.1 step 4, stated as written: "Execute each command in the
builder's `run` list sequentially ...  Stop on the first non-zero exit."
The commands actually executed are therefore the results up to and
including the first failing one. -/
def specExecutedResults (exec : Nat → List String → CmdResult) :
    Nat → List String → List CmdResult
  | _, [] => []
  | i, cmd :: rest =>
      let r := exec i (strSplitOn ' ' cmd)
      if r.exitCode == 0 then r :: specExecutedResults exec (i + 1) rest
      else [r]

/-- Spec §4.1 step 2 / claim C5, stated as written: the Jaccard similarity
over the two line sets. -/
def specJaccard (p1 p2 : String) : ℚ :=
  (((strSplitOn '\n' p1).toFinset ∩ (strSplitOn '\n' p2).toFinset).card : ℚ) /
    (((strSplitOn '\n' p1).toFinset ∪ (strSplitOn '\n' p2).toFinset).card : ℚ)

/-- Claim C5 as stated: stuck iff exact match against any previous patch,
or Jaccard similarity ≥ 0.95 against the most recent previous patch (as
soon as one previous patch exists). -/
def claimStuckC5 (history : List String) (current : String) : Prop :=
  current ∈ history ∨
    ∃ last, history.getLast? = some last ∧ specJaccard last current ≥ (0.95 : ℚ)

/-- Claim C5 amended to the code's behaviour: the similarity branch needs
at least two previous patches and is strict. -/
def stuckAmended (history : List String) (current : String) : Prop :=
  current ∈ history ∨
    (2 ≤ history.length ∧
      ∃ last, history.getLast? = some last ∧ specJaccard last current > (0.95 : ℚ))

/-! ## Concrete instances used by counterexamples and witnesses -/

/-- A patch of 20 pairwise-distinct lines. -/
def patchTwenty : String :=
  "a1\na2\na3\na4\na5\na6\na7\na8\na9\naa\nab\nac\nad\nae\naf\nag\nah\nai\naj\nak"

/-- The first 19 lines of `patchTwenty`: Jaccard similarity exactly
`19/20 = 0.95`. -/
def patchNineteen : String :=
  "a1\na2\na3\na4\na5\na6\na7\na8\na9\naa\nab\nac\nad\nae\naf\nag\nah\nai\naj"

def patchOk : String := "--- a/src/x.ts\n+++ b/src/x.ts\n@@ -1 +1 @@\n+1"

def patchOk2 : String := "--- a/src/y.ts\n+++ b/src/y.ts\n@@ -1 +1 @@\n+2"

/-- A run oracle whose sub-processes all succeed. -/
def passRun : Nat → List String → CmdResult := fun _ _ => ⟨"ok", "", 0⟩

def implMsg (p : String) : BuilderMsg :=
  ⟨none, some ["plan"], some p, some ["t"], some ["npm test"], some []⟩

def fileReqMsg : BuilderMsg := ⟨some ["src/a.ts"], none, none, none, none, none⟩

def approveRev : Review := ⟨.approve, [], none, none, "ok", none, none⟩

def uncertainRev : Review := ⟨.block, [], none, none, "unsure", some .uncertainty, some ["npm run dbg"]⟩

/-- `max_iterations = 1`, `review_mode = always`, no moderator. -/
def cfgOne : Config := ⟨"npm test", ["src/"], 1, .always, true, false, false⟩

/-- `max_iterations = 1`, `review_mode = final_only`, no moderator. -/
def cfgFinalOnly : Config := ⟨"npm test", ["src/"], 1, .final_only, true, false, false⟩

/-- `max_iterations = 3`, `review_mode = always`, no moderator. -/
def cfgThree : Config := ⟨"npm test", ["src/"], 3, .always, true, false, false⟩

/-- `max_iterations = 3`, `review_mode = final_only`, no moderator. -/
def cfgFinalThree : Config := ⟨"npm test", ["src/"], 3, .final_only, true, false, false⟩

/-- The builder answers every prompt with a file request. -/
def orcFilesForever : Oracle :=
  ⟨fun _ => some fileReqMsg, fun _ => some approveRev, fun _ => .parseFail, passRun, fun _ => none⟩

/-- The builder's completion never parses. -/
def orcBuilderParseFail : Oracle :=
  ⟨fun _ => none, fun _ => some approveRev, fun _ => .parseFail, passRun, fun _ => none⟩

/-- The builder first asks for files, then supplies an implementation; tests
pass and the reviewer approves. -/
def orcFilesThenImpl : Oracle :=
  ⟨fun n => if n == 0 then some fileReqMsg else some (implMsg patchOk),
   fun _ => some approveRev, fun _ => .parseFail, passRun, fun _ => none⟩

/-- The builder supplies two distinct implementations; the reviewer blocks
with uncertainty once, then approves. -/
def orcUncertainThenApprove : Oracle :=
  ⟨fun n => if n == 0 then some (implMsg patchOk) else some (implMsg patchOk2),
   fun n => if n == 0 then some uncertainRev else some approveRev,
   fun _ => .parseFail, passRun, fun _ => none⟩

/-- One implementation, tests pass, reviewer approves. -/
def orcHappy : Oracle :=
  ⟨fun _ => some (implMsg patchOk), fun _ => some approveRev, fun _ => .parseFail, passRun,
   fun _ => none⟩

/-- A third patch, distinct from the other two, for two-element histories. -/
def patchOther : String := "zz"

/-! # Theorems

Supporting lemmas first, then one theorem (plus counterexample/witness)
per claim. -/

/-! ## Supporting lemmas: schema round-trips (claim C7) -/

theorem parseSeverity_encode (s : Severity) : parseSeverity (encodeSeverity s) = some s := by
  cases s <;> rfl

theorem parseVerdict_encode (v : Verdict) : parseVerdict (encodeVerdict v) = some v := by
  cases v <;> rfl

theorem parseBlockReason_encode (b : BlockReason) :
    parseBlockReason (encodeBlockReason b) = some b := by
  cases b <;> rfl

theorem parseIssue_encode (i : Issue) : parseIssue (encodeIssue i) = some i := by
  obtain ⟨sev, d, how, iid, unc⟩ := i
  cases how <;> cases iid <;> cases unc <;>
    simp [parseIssue, encodeIssue, reqField, optField, getField, List.lookup,
      parseSeverity_encode, asStr, asBool, encOpt]

theorem mapOption_parseIssue_encode (l : List Issue) :
    mapOption parseIssue (l.map encodeIssue) = some l := by
  induction l with
  | nil => rfl
  | cons hd tl ih => simp [mapOption, parseIssue_encode, ih]

theorem mapOption_asStr_encode (l : List String) :
    mapOption asStr (l.map Json.str) = some l := by
  induction l with
  | nil => rfl
  | cons hd tl ih => simp [mapOption, asStr, ih]

/-! ## Supporting lemmas: Jaccard similarity (claim C5) -/

theorem splitChar_ne_nil (sep : Char) (s : List Char) : splitChar sep s ≠ [] := by
  induction s with
  | nil => simp [splitChar]
  | cons c cs ih =>
      show (match splitChar sep cs with
        | [] => [[c]]
        | cur :: rest => if c = sep then [] :: cur :: rest else (c :: cur) :: rest) ≠ []
      rcases splitChar sep cs with _ | ⟨cur, rest⟩
      · simp
      · simp only []
        split <;> simp

theorem strSplitOn_ne_nil (sep : Char) (s : String) : strSplitOn sep s ≠ [] := by
  simp [strSplitOn, splitChar_ne_nil]

theorem dedup_toFinset (l : List String) : l.dedup.toFinset = l.toFinset :=
  List.toFinset.ext (fun x => by simp)

theorem interSize_card (p1 p2 : String) :
    interSize p1 p2 =
      ((strSplitOn '\n' p1).toFinset ∩ (strSplitOn '\n' p2).toFinset).card := by
  classical
  unfold interSize patchLineSet
  have hnd : ((strSplitOn '\n' p1).dedup.filter
      (fun x => (strSplitOn '\n' p2).dedup.contains x)).Nodup :=
    (List.nodup_dedup _).filter _
  rw [← List.toFinset_card_of_nodup hnd]
  congr 1
  ext a
  simp [List.mem_filter, List.mem_dedup, List.mem_toFinset, Finset.mem_inter]

theorem unionSize_card (p1 p2 : String) :
    unionSize p1 p2 =
      ((strSplitOn '\n' p1).toFinset ∪ (strSplitOn '\n' p2).toFinset).card := by
  unfold unionSize patchLineSet
  rw [← List.card_toFinset, List.toFinset_append, dedup_toFinset, dedup_toFinset]

/-- The code's line-set similarity and the spec's Jaccard similarity agree
(in particular the `p1 === p2 → 1.0` shortcut is redundant). -/
theorem patchSimilarity_eq_specJaccard (p1 p2 : String) :
    patchSimilarity p1 p2 = specJaccard p1 p2 := by
  unfold patchSimilarity specJaccard
  by_cases h : p1 = p2
  · subst h
    rw [if_pos rfl, Finset.inter_self, Finset.union_self]
    have hne : (strSplitOn '\n' p1).toFinset.card ≠ 0 := by
      obtain ⟨x, hx⟩ := List.exists_mem_of_ne_nil _ (strSplitOn_ne_nil '\n' p1)
      exact Finset.card_ne_zero_of_mem (List.mem_toFinset.mpr hx)
    rw [div_self (by exact_mod_cast hne)]
  · rw [if_neg h, interSize_card, unionSize_card]

theorem specJaccard_nineteen :
    specJaccard patchTwenty patchNineteen = 19 / 20 := by
  have hi : ((strSplitOn '\n' patchTwenty).toFinset ∩
      (strSplitOn '\n' patchNineteen).toFinset).card = 19 := by
    rw [← interSize_card]; decide
  have hu : ((strSplitOn '\n' patchTwenty).toFinset ∪
      (strSplitOn '\n' patchNineteen).toFinset).card = 20 := by
    rw [← unionSize_card]; decide
  unfold specJaccard
  rw [hi, hu]
  norm_num

/-! ## Supporting lemmas: the RUN state (claim C8) -/

theorem specExecutedResults_ne_nil (exec : Nat → List String → CmdResult) (i : Nat)
    (cmds : List String) (h : cmds ≠ []) : specExecutedResults exec i cmds ≠ [] := by
  cases cmds with
  | nil => exact absurd rfl h
  | cons cmd rest =>
      rw [specExecutedResults]
      split <;> simp

theorem getLastD_of_ne_nil {l : List CmdResult} (h : l ≠ []) (d1 d2 : CmdResult) :
    l.getLastD d1 = l.getLastD d2 := by
  cases l with
  | nil => exact absurd rfl h
  | cons a t => rw [List.getLastD_cons, List.getLastD_cons]

/-- The loop of the RUN state computes exactly the spec's
"execute sequentially, stop at first non-zero exit" result list: its events
are those results in order, `lastTestOutput` is the last of them, and one
oracle index is consumed per executed command. -/
theorem runSeq_eq_spec (orc : Oracle) (cmds : List String) :
    ∀ (i : Nat) (last : CmdResult), cmds ≠ [] →
      runSeq orc cmds i last =
        ((specExecutedResults orc.run i cmds).map Event.testsOutput,
         (specExecutedResults orc.run i cmds).getLastD ⟨"", "", 0⟩,
         i + (specExecutedResults orc.run i cmds).length) := by
  induction cmds with
  | nil => intro i last h; exact absurd rfl h
  | cons cmd rest ih =>
      intro i last _
      rw [runSeq, specExecutedResults]
      by_cases h0 : (orc.run i (strSplitOn ' ' cmd)).exitCode == 0
      · rw [if_neg (by simpa using h0), if_pos h0]
        cases hr : rest with
        | nil =>
            simp [runSeq, specExecutedResults]
        | cons r2 rs =>
            rw [← hr, ih (i + 1) (orc.run i (strSplitOn ' ' cmd)) (by simp [hr])]
            have hne := specExecutedResults_ne_nil orc.run (i + 1) rest (by simp [hr])
            simp only [List.map_cons, List.getLastD_cons, List.length_cons]
            refine congrArg₂ Prod.mk rfl (congrArg₂ Prod.mk ?_ (by omega))
            exact (getLastD_of_ne_nil hne _ _).symm
      · rw [if_pos (by simpa using h0), if_neg h0]
        simp

/-- The exit code of the last executed command is zero iff every executed
command exited zero (the run stops at the first failure). -/
theorem spec_last_pass (exec : Nat → List String → CmdResult) (cmds : List String) :
    ∀ i : Nat, cmds ≠ [] →
      (((specExecutedResults exec i cmds).getLastD ⟨"", "", 0⟩).exitCode == 0) =
        (specExecutedResults exec i cmds).all (fun r => r.exitCode == 0) := by
  induction cmds with
  | nil => intro i h; exact absurd rfl h
  | cons cmd rest ih =>
      intro i _
      rw [specExecutedResults]
      by_cases h0 : (exec i (strSplitOn ' ' cmd)).exitCode == 0
      · rw [if_pos h0]
        cases hr : rest with
        | nil => simp [specExecutedResults, h0]
        | cons r2 rs =>
            rw [← hr]
            have hne := specExecutedResults_ne_nil exec (i + 1) rest (by simp [hr])
            rw [List.getLastD_cons, List.all_cons, h0, Bool.true_and,
              getLastD_of_ne_nil hne _ ⟨"", "", 0⟩, ih (i + 1) (by simp [hr])]
      · rw [if_neg h0]
        simp [h0]

/-! ## Supporting lemmas: file-system bookkeeping (claim C6) -/

theorem lookup_filter_ne (t : FS) (name : String) :
    List.lookup name (t.filter (fun e => e.1 ≠ name)) = none := by
  induction t with
  | nil => rfl
  | cons e t ih =>
      rw [List.filter_cons]
      by_cases h : e.1 = name
      · rw [if_neg (by simp [h])]
        exact ih
      · rw [if_pos (by simp [h])]
        have hb : (name == e.1) = false := beq_eq_false_iff_ne.mpr (Ne.symm h)
        simpa [List.lookup, hb] using ih

theorem fsHas_fsRemove (fs : FS) (name : String) : fsHas (fsRemove fs name) name = false := by
  rw [fsHas, fsRemove, lookup_filter_ne]
  rfl

/-! ## Claim C2 — allow-list glob semantics: corrected

The matcher does not implement the stated glob semantics.  It builds the
regex by replacing every `*` with `.*` (so `**` becomes `.*.*`, `**/` does
not collapse, `?` keeps its regex-quantifier meaning, and no metacharacter
is escaped) and additionally accepts any path of which the raw pattern is a
string prefix.  On the spec's own vector, `src/a.ts` is NOT allowed under
`["src/**/*.ts"]`: the generated anchored regex `^src/.*.*/.*.ts$` demands
a `/` after `src/`, and the prefix check fails too. -/

/-- C2 counterexample: the claim states `isAllowed("src/a.ts",
["src/**/*.ts"]) = true`; the code yields `false`. -/
theorem c2_counterexample_src_a_ts_not_allowed :
    isPathAllowed ["src/**/*.ts"] "src/a.ts" = false := by decide

/-- C2 amended: under the `*`→`.*`-regex-or-raw-prefix semantics actually
implemented, the vector for `["src/**/*.ts"]` is: `src/sub/b.ts` allowed;
`src/a.ts`, `src/a.js`, `lib/a.ts` not allowed; and a pattern admits every
path it is a string prefix of (e.g. `"src/"` admits `src/x.ts`). -/
theorem c2_glob_matcher_star_regex_or_prefix :
    isPathAllowed ["src/**/*.ts"] "src/sub/b.ts" = true ∧
    isPathAllowed ["src/**/*.ts"] "src/a.ts" = false ∧
    isPathAllowed ["src/**/*.ts"] "src/a.js" = false ∧
    isPathAllowed ["src/**/*.ts"] "lib/a.ts" = false ∧
    isPathAllowed ["src/"] "src/x.ts" = true := by decide

/-! ## Claim C5 — oscillation detector: corrected

The exact-match half of the claim is implemented as stated, but the
similarity half differs twice from the claim: it requires at least TWO
previously recorded patches (`patchHistory.length >= 2`), not one, and the
threshold is strict (`similarity > 0.95`), so a similarity of exactly
`0.95` does not count as stuck. -/

/-- C5 counterexample: `patchNineteen` has Jaccard similarity exactly
`19/20 = 0.95` with `patchTwenty`.  With one previous patch the claim says
stuck but the code says no (similarity branch needs two entries); with two
previous patches the claim still says stuck (`≥ 0.95`) but the strict `>`
comparison says no. -/
theorem c5_counterexample_similarity_window_and_threshold :
    (claimStuckC5 [patchTwenty] patchNineteen ∧
      detectOscillation [patchTwenty] patchNineteen = false) ∧
    (claimStuckC5 [patchOther, patchTwenty] patchNineteen ∧
      detectOscillation [patchOther, patchTwenty] patchNineteen = false) := by
  refine ⟨⟨Or.inr ⟨patchTwenty, rfl, ?_⟩, by decide⟩,
    ⟨Or.inr ⟨patchTwenty, rfl, ?_⟩, ?_⟩⟩
  · rw [specJaccard_nineteen]; norm_num
  · rw [specJaccard_nineteen]; norm_num
  · have hl : ([patchOther, patchTwenty].getLastD "") = patchTwenty := rfl
    unfold detectOscillation
    rw [if_neg (by decide), if_pos (by decide), hl, patchSimilarity_eq_specJaccard,
      specJaccard_nineteen]
    exact decide_eq_false (by norm_num)

/-- C5 amended: a new patch is classified as stuck iff it is an exact
string match against any previously recorded patch, or there are at least
two previously recorded patches and its Jaccard similarity over line sets
against the most recent one is strictly greater than 0.95. -/
theorem c5_oscillation_exact_or_strict_similarity (history : List String) (current : String) :
    detectOscillation history current = true ↔ stuckAmended history current := by
  unfold detectOscillation stuckAmended
  by_cases hc : history.contains current = true
  · have hmem : current ∈ history := by simpa using hc
    simp [hc, hmem]
  · have hmem : current ∉ history := by simpa using hc
    rw [if_neg (by simpa using hc)]
    by_cases hlen : history.length ≥ 2
    · rw [if_pos hlen]
      have hne : history ≠ [] := by
        intro h; rw [h] at hlen; simp at hlen
      obtain ⟨last, hlast⟩ : ∃ l, history.getLast? = some l := by
        cases h : history.getLast? with
        | none => exact absurd (List.getLast?_eq_none_iff.mp h) hne
        | some l => exact ⟨l, rfl⟩
      have hD : history.getLastD "" = last := by
        rw [List.getLastD_eq_getLast?, hlast]; rfl
      simp only [hD, hlast, decide_eq_true_eq, patchSimilarity_eq_specJaccard]
      constructor
      · intro hgt
        exact Or.inr ⟨hlen, last, rfl, hgt⟩
      · rintro (h | ⟨-, l, hl, hgt⟩)
        · exact absurd h hmem
        · cases hl; exact hgt
    · rw [if_neg hlen]
      constructor
      · intro h; exact absurd h (by simp)
      · rintro (h | ⟨h2, -⟩)
        · exact (hmem h).elim
        · exact (hlen h2).elim

/-! ## Claim C6 — temp patch file cleanup: corrected

`applyPatch` has no `finally`: the `fs.unlinkSync` runs only after a
successful `git apply`.  When `git apply` throws (non-zero exit), the
`catch` returns `{success:false}` and the dotfile is left in the
workspace. -/

/-- C6 counterexample: when `git apply` fails, `applyPatch` reports the
failure but the temp file `.dualagent-temp.patch` still exists. -/
theorem c6_counterexample_temp_file_left_on_git_failure :
    (applyPatchFS ["src/"] (fun _ => .error "corrupt patch") patchOk []).1 =
      ⟨false, some "Failed to apply patch: corrupt patch"⟩ ∧
    fsHas (applyPatchFS ["src/"] (fun _ => .error "corrupt patch") patchOk []).2 tempPatchFile
      = true := by decide

/-- C6 amended: the temp file is removed on the success path (whatever
`git apply` did to the file system); on a `git apply` failure it is left
behind, and on a validation failure it is never written. -/
theorem c6_temp_file_removed_on_success (allowPaths : List String)
    (gitApply : FS → Except String FS) (patch : String) (fs : FS)
    (h : (applyPatchFS allowPaths gitApply patch fs).1.success = true) :
    fsHas (applyPatchFS allowPaths gitApply patch fs).2 tempPatchFile = false := by
  unfold applyPatchFS at h ⊢
  by_cases hv : (validatePatch allowPaths patch).valid
  · rw [if_pos hv] at h ⊢
    cases hg : gitApply (fsWrite fs tempPatchFile patch) with
    | ok fs2 => simp only [hg]; exact fsHas_fsRemove fs2 tempPatchFile
    | error e => simp only [hg] at h; simp at h
  · rw [if_neg hv] at h; simp at h

theorem c6_temp_file_removed_on_success_witness :
    (applyPatchFS ["src/"] (fun f => .ok f) patchOk []).1.success = true ∧
    fsHas (applyPatchFS ["src/"] (fun f => .ok f) patchOk []).2 tempPatchFile = false :=
  ⟨by decide, c6_temp_file_removed_on_success _ _ _ _ (by decide)⟩

/-! ## Claim C7 — Review invariants at the parser: corrected

`ReviewSchema` declares only field types; it has no cross-field `refine`.
A `block` verdict without `block_reason`, and `block_reason = uncertainty`
without (or with an empty) `diagnostics_needed`, all validate. -/

/-- C7 counterexample: three reviews violating the claimed invariants are
accepted by the schema (parse result is non-null). -/
theorem c7_counterexample_block_invariants_not_enforced :
    parseReview (.obj [("verdict", .str "block"), ("issues", .arr []),
        ("stopping", .str "needs another look")]) =
      some ⟨.block, [], none, none, "needs another look", none, none⟩ ∧
    parseReview (.obj [("verdict", .str "block"), ("issues", .arr []),
        ("stopping", .str "s"), ("block_reason", .str "uncertainty")]) =
      some ⟨.block, [], none, none, "s", some .uncertainty, none⟩ ∧
    parseReview (.obj [("verdict", .str "block"), ("issues", .arr []),
        ("stopping", .str "s"), ("block_reason", .str "uncertainty"),
        ("diagnostics_needed", .arr [])]) =
      some ⟨.block, [], none, none, "s", some .uncertainty, some []⟩ := by decide

/-- C7 amended: the parser checks field presence and types only; every
well-typed `Review` value — including each one violating the cross-field
invariants — is the successful parse of some JSON input. -/
theorem c7_schema_accepts_every_well_typed_review (r : Review) :
    parseReview (encodeReview r) = some r := by
  obtain ⟨v, issues, sp, et, stopping, br, dn⟩ := r
  cases sp <;> cases et <;> cases br <;> cases dn <;>
    simp [parseReview, encodeReview, reqField, optField, getField, List.lookup,
      parseVerdict_encode, parseBlockReason_encode, parseIssueList, mapOption_parseIssue_encode,
      asStr, asStrList, mapOption_asStr_encode, encOpt, encodeStrList]

/-! ## Claim C8 — the RUN state: confirmed -/

/-- C8: with no `run` list (or an empty one) the configured `test_command`
is executed; with a non-empty `run` list the commands are executed
sequentially in order, stopping after the first non-zero exit;
`lastTestOutput` is the last command actually run, and its exit code is
zero iff every executed command exited zero. -/
theorem c8_run_state_semantics (cfg : Config) (orc : Oracle) (cIdx : Nat) :
    (runPhase cfg orc none cIdx =
      ([Event.testsOutput (orc.run cIdx (strSplitOn ' ' cfg.test_command))],
       orc.run cIdx (strSplitOn ' ' cfg.test_command), cIdx + 1)) ∧
    (runPhase cfg orc (some []) cIdx =
      ([Event.testsOutput (orc.run cIdx (strSplitOn ' ' cfg.test_command))],
       orc.run cIdx (strSplitOn ' ' cfg.test_command), cIdx + 1)) ∧
    ∀ cmds : List String, cmds ≠ [] →
      (runPhase cfg orc (some cmds) cIdx =
        ((specExecutedResults orc.run cIdx cmds).map Event.testsOutput,
         (specExecutedResults orc.run cIdx cmds).getLastD ⟨"", "", 0⟩,
         cIdx + (specExecutedResults orc.run cIdx cmds).length)) ∧
      (((specExecutedResults orc.run cIdx cmds).getLastD ⟨"", "", 0⟩).exitCode == 0) =
        (specExecutedResults orc.run cIdx cmds).all (fun r => r.exitCode == 0) := by
  refine ⟨by simp [runPhase], by simp [runPhase],
    fun cmds h => ⟨?_, spec_last_pass orc.run cmds cIdx h⟩⟩
  unfold runPhase
  rw [if_pos (by simpa using h)]
  exact runSeq_eq_spec orc cmds cIdx ⟨"", "", 0⟩ h

theorem c8_run_state_semantics_witness :
    runPhase cfgThree orcHappy (some ["npm test"]) 0 =
      ((specExecutedResults orcHappy.run 0 ["npm test"]).map Event.testsOutput,
       (specExecutedResults orcHappy.run 0 ["npm test"]).getLastD ⟨"", "", 0⟩,
       0 + (specExecutedResults orcHappy.run 0 ["npm test"]).length) :=
  ((c8_run_state_semantics cfgThree orcHappy 0).2.2 ["npm test"] (by decide)).1

/-! ## Claim C9 — unrecognized diff formats: corrected

`validatePatch` only checks that the paths it can extract are allowed.  A
text with no recognizable `---`/`+++ [ab]/...` header lines extracts no
paths, so the path loop is vacuous and the patch is reported valid; the
format itself is never checked (the failure would surface later, as an
`ApplyError` from `git apply`, not as a GuardError). -/

/-- C9 counterexample: arbitrary non-diff text is reported `{valid:true}`,
where the claim demands a guard rejection. -/
theorem c9_counterexample_non_diff_text_accepted :
    validatePatch ["src/"] "Sure! Here is the code change you asked for." =
      ⟨true, none⟩ := by decide

/-- C9 amended: any input from which the diff-header scan extracts no
paths — in particular any text with an unrecognized diff format — passes
`validatePatch`. -/
theorem c9_validate_patch_accepts_pathless_patch (allowPaths : List String) (patch : String)
    (h : extractPatchPaths patch = []) : validatePatch allowPaths patch = ⟨true, none⟩ := by
  unfold validatePatch
  rw [h]
  rfl

theorem c9_validate_patch_accepts_pathless_patch_witness :
    extractPatchPaths "not a diff at all" = [] ∧
    validatePatch [] "not a diff at all" = ⟨true, none⟩ :=
  ⟨by decide, c9_validate_patch_accepts_pathless_patch [] _ (by decide)⟩

/-! ## Supporting lemmas: the state machine -/

theorem state_done (evs : List Event) (st : CycleState) : (StepResult.done evs st).state = st := rfl

theorem state_prepend (pre : List Event) (r : StepResult) :
    (r.prepend pre).state = r.state := rfl

theorem events_prepend (pre : List Event) (r : StepResult) :
    (r.prepend pre).events = pre ++ r.events := rfl

theorem maxIterCheck_patchHistory (cfg : Config) (orc : Oracle) (st : CycleState) (i : Nat)
    (review : Review) : (maxIterCheck cfg orc st i review).state.patchHistory = st.patchHistory := by
  unfold maxIterCheck
  repeat' split
  all_goals rfl

theorem maxIterCheck_rIdx (cfg : Config) (orc : Oracle) (st : CycleState) (i : Nat)
    (review : Review) : (maxIterCheck cfg orc st i review).state.rIdx = st.rIdx := by
  unfold maxIterCheck
  repeat' split
  all_goals rfl

theorem interpretReview_patchHistory (cfg : Config) (orc : Oracle) (st : CycleState) (i : Nat)
    (review : Review) :
    (interpretReview cfg orc st i review).state.patchHistory = st.patchHistory := by
  unfold interpretReview
  repeat' split
  all_goals
    first
      | rfl
      | (simp only [state_prepend, maxIterCheck_patchHistory])

theorem interpretReview_rIdx (cfg : Config) (orc : Oracle) (st : CycleState) (i : Nat)
    (review : Review) :
    (interpretReview cfg orc st i review).state.rIdx = st.rIdx := by
  unfold interpretReview
  repeat' split
  all_goals
    first
      | rfl
      | (simp only [state_prepend, maxIterCheck_rIdx])

theorem callModerator_no_reviewReady (cfg : Config) (orc : Oracle) (m : Nat) :
    (callModerator cfg orc m).events.countP Event.isReviewReady = 0 := by
  unfold callModerator
  repeat' split
  all_goals simp [parseErrorEvent, Event.isReviewReady, List.countP_cons]

theorem runDiagnosticsAux_no_reviewReady (orc : Oracle) (cmds : List String) :
    ∀ i, (runDiagnosticsAux orc cmds i).1.countP Event.isReviewReady = 0 := by
  induction cmds with
  | nil => intro i; rfl
  | cons c rest ih =>
      intro i
      rw [runDiagnosticsAux]
      simp [List.countP_cons, Event.isReviewReady, ih]

theorem runDiagnostics_no_reviewReady (orc : Oracle) (cmds : List String) (i : Nat) :
    (runDiagnostics orc cmds i).events.countP Event.isReviewReady = 0 := by
  unfold runDiagnostics
  simp [List.countP_cons, Event.isReviewReady, runDiagnosticsAux_no_reviewReady]

theorem runSeq_no_reviewReady (orc : Oracle) (cmds : List String) :
    ∀ i last, (runSeq orc cmds i last).1.countP Event.isReviewReady = 0 := by
  induction cmds with
  | nil => intro i last; rfl
  | cons c rest ih =>
      intro i last
      rw [runSeq]
      split <;> simp [List.countP_cons, Event.isReviewReady, ih]

theorem runPhase_no_reviewReady (cfg : Config) (orc : Oracle) (rl : Option (List String))
    (i : Nat) : (runPhase cfg orc rl i).1.countP Event.isReviewReady = 0 := by
  unfold runPhase
  split
  · exact runSeq_no_reviewReady orc _ _ _
  · simp [List.countP_cons, Event.isReviewReady]

theorem runArbiterMode_no_reviewReady (cfg : Config) (orc : Oracle) (iss : Issue)
    (b a c : Nat) :
    (runArbiterMode cfg orc iss b a c).events.countP Event.isReviewReady = 0 := by
  unfold runArbiterMode
  repeat' split
  all_goals
    simp [parseErrorEvent, Event.isReviewReady, List.countP_cons, List.countP_append]

theorem maxIterCheck_no_reviewReady (cfg : Config) (orc : Oracle) (st : CycleState) (i : Nat)
    (review : Review) :
    (maxIterCheck cfg orc st i review).events.countP Event.isReviewReady = 0 := by
  unfold maxIterCheck
  repeat' split
  all_goals
    first
      | (simp [List.countP_append, List.countP_cons, Event.isReviewReady,
          callModerator_no_reviewReady, StepResult.done, StepResult.next]; done)
      | rfl

theorem interpretReview_no_reviewReady (cfg : Config) (orc : Oracle) (st : CycleState)
    (i : Nat) (review : Review) :
    (interpretReview cfg orc st i review).events.countP Event.isReviewReady = 0 := by
  unfold interpretReview
  repeat' split
  all_goals
    first
      | rfl
      | (simp [events_prepend, List.countP_append, List.countP_cons, Event.isReviewReady,
          maxIterCheck_no_reviewReady, runArbiterMode_no_reviewReady,
          runDiagnostics_no_reviewReady, StepResult.done, StepResult.next]; done)

theorem detectOscillation_false_not_mem (history : List String) (p : String)
    (h : detectOscillation history p = false) : p ∉ history := by
  intro hmem
  unfold detectOscillation at h
  rw [if_pos (by simpa using hmem)] at h
  simp at h

theorem nodup_append_singleton {l : List String} {p : String} (h : l.Nodup) (hp : p ∉ l) :
    (l ++ [p]).Nodup := by
  rw [List.nodup_append]
  exact ⟨h, List.nodup_singleton p, fun a ha hb => by simp at hb; subst hb; exact hp ha⟩

/-- One loop trip never records a duplicate patch: the only append to
`patchHistory` sits below the oscillation check, whose exact-match half has
returned `false`. -/
theorem cycleStep_patchHistory_nodup (cfg : Config) (orc : Oracle) (st : CycleState)
    (h : st.patchHistory.Nodup) : (cycleStep cfg orc st).state.patchHistory.Nodup := by
  unfold cycleStep
  repeat' split
  all_goals try simp only [state_prepend, interpretReview_patchHistory]
  all_goals
    first
      | exact h
      | exact nodup_append_singleton h
          (detectOscillation_false_not_mem _ _ (by simp_all))

theorem runCycleLoop_patchHistory_nodup (cfg : Config) (orc : Oracle) (fuel : Nat) :
    ∀ st : CycleState, st.patchHistory.Nodup →
      ((runCycleLoop cfg orc fuel st).2.patchHistory).Nodup := by
  induction fuel with
  | zero => intro st h; exact h
  | succ n ih =>
      intro st h
      rw [runCycleLoop]
      split
      · split
        · exact cycleStep_patchHistory_nodup cfg orc st h
        · exact ih _ (cycleStep_patchHistory_nodup cfg orc st h)
      · exact h

/-! ## Claim C10 — patch history is duplicate-free: confirmed -/

/-- C10: at every point during a cycle the recorded patch history is
pairwise distinct: any loop trip started from a duplicate-free history
leaves it duplicate-free (the exact-match oscillation check runs before the
append), and hence a whole `runCycle` — which starts from the empty
history — keeps `patchHistory` duplicate-free at every iteration. -/
theorem c10_patch_history_pairwise_distinct (cfg : Config) (orc : Oracle) (fuel : Nat)
    (st : CycleState) (h : st.patchHistory.Nodup) :
    ((runCycleLoop cfg orc fuel st).2.patchHistory).Nodup ∧
    ((runCycle cfg orc fuel).2.patchHistory).Nodup :=
  ⟨runCycleLoop_patchHistory_nodup cfg orc fuel st h,
   runCycleLoop_patchHistory_nodup cfg orc fuel initCycleState (by simp [initCycleState])⟩

theorem c10_patch_history_pairwise_distinct_witness :
    (initCycleState.patchHistory).Nodup ∧
    ((runCycle cfgThree orcHappy 5).2.patchHistory).Nodup := by
  have h : (initCycleState.patchHistory).Nodup := by decide
  exact ⟨h, (c10_patch_history_pairwise_distinct cfgThree orcHappy 5 initCycleState h).2⟩

/-! ## Claim C4 — `final_only` review gating: corrected

Under `final_only` the reviewer is indeed consulted only when the
iteration counter equals `max_iterations`, but it is not consulted at most
once per cycle: an uncertainty verdict decrements the counter and loops,
so the reviewer runs again at the next pass through the final iteration. -/

/-- C4 counterexample: `max_iterations = 1`, `review_mode = final_only`;
the reviewer blocks with uncertainty, diagnostics run, the counter is
decremented, and the reviewer is invoked a second time: two `review_ready`
events in one cycle, where the claim allows at most one. -/
theorem c4_counterexample_reviewer_twice_under_final_only :
    ((runCycle cfgFinalOnly orcUncertainThenApprove 5).1.countP Event.isReviewReady) = 2 := by
  decide

/-- C4 amended: under `final_only`, a loop trip entered with
`iteration + 1 < max_iterations` neither emits a `review_ready` event nor
consults the reviewer (its call counter is unchanged) — so every reviewer
invocation happens at `i = max_iterations`, though possibly several
times. -/
theorem c4_final_only_reviews_only_at_max_iterations (cfg : Config) (orc : Oracle)
    (st : CycleState) (hmode : cfg.review_mode = .final_only)
    (hlt : st.iteration + 1 < cfg.max_iterations) :
    (cycleStep cfg orc st).events.countP Event.isReviewReady = 0 ∧
    (cycleStep cfg orc st).state.rIdx = st.rIdx := by
  have hsrr : ∀ tp : Bool, shouldRunReviewer cfg (st.iteration + 1) tp = false := by
    intro tp
    unfold shouldRunReviewer
    rw [hmode]
    simp only [decide_eq_false_iff_not]
    omega
  unfold cycleStep
  repeat' split
  all_goals
    first
      | (refine ⟨?_, ?_⟩ <;>
          first
            | rfl
            | (simp [events_prepend, state_prepend, interpretReview_rIdx,
                interpretReview_no_reviewReady, List.countP_append, List.countP_cons,
                Event.isReviewReady, parseErrorEvent, oscillationFailure,
                callModerator_no_reviewReady,
                runPhase_no_reviewReady, StepResult.done, StepResult.next]; done))
      | (exfalso; simp_all; done)

theorem c4_final_only_reviews_only_at_max_iterations_witness :
    (cycleStep cfgFinalThree orcHappy initCycleState).events.countP Event.isReviewReady = 0 ∧
    (cycleStep cfgFinalThree orcHappy initCycleState).state.rIdx = initCycleState.rIdx :=
  c4_final_only_reviews_only_at_max_iterations cfgFinalThree orcHappy initCycleState rfl
    (by decide)

/-! ## Claim C3 — file requests and the iteration counter: corrected

The `files_needed` branch appends the "Files provided: ..." note and
`continue`s, but — unlike the uncertainty branch, which performs
`iteration--` — it does not decrement the counter, so the next loop trip
increments past it: a file-request turn consumes one of the
`max_iterations` attempts. -/

/-- C3 counterexample: with `max_iterations = 1` and a builder that first
asks for files and then would deliver an implementation, the file-request
turn leaves the counter at 1, the loop exits, and no `patch_ready` event is
ever emitted (where the claim promises a free re-entry to BUILD). -/
theorem c3_counterexample_file_request_consumes_attempt :
    (cycleStep cfgOne orcFilesThenImpl initCycleState).state.iteration = 1 ∧
    ((runCycle cfgOne orcFilesThenImpl 5).1.countP Event.isPatchReady) = 0 := by decide

/-- C3 amended: a `files_needed` response reads the requested files,
appends the "Files provided: ..." note to `open_issues`, and re-enters
BUILD with the iteration counter already incremented — the file request
consumes an attempt. -/
theorem c3_file_request_increments_iteration (cfg : Config) (orc : Oracle) (st : CycleState)
    (msg : BuilderMsg) (fs : List String) (hb : orc.builder st.bIdx = some msg)
    (hf : msg.files_needed = some fs) (hne : fs ≠ []) :
    cycleStep cfg orc st =
      StepResult.next []
        {st with iteration := st.iteration + 1, bIdx := st.bIdx + 1,
                 openIssues := st.openIssues ++ [filesProvidedNote fs]} := by
  unfold cycleStep
  rw [hb]
  simp [hf, hne]

theorem c3_file_request_increments_iteration_witness :
    cycleStep cfgOne orcFilesForever initCycleState =
      StepResult.next []
        {initCycleState with iteration := initCycleState.iteration + 1,
                             bIdx := initCycleState.bIdx + 1,
                             openIssues :=
                               initCycleState.openIssues ++
                                 [filesProvidedNote ["src/a.ts"]]} :=
  c3_file_request_increments_iteration cfgOne orcFilesForever initCycleState fileReqMsg
    ["src/a.ts"] rfl rfl (by decide)

/-! ## Claim C1 — exactly one terminal event: code bug

The exit contract fails in both directions.  (i) When the builder answers
`files_needed` on the last permitted iteration, the `continue` re-tests
`iteration < max_iterations`, the loop exits, and `runCycle` returns with
no terminal event at all.  (ii) On a parse failure, `parseJSON` emits an
`error` event and then `runCycle` emits a second one, so the trace carries
two terminal `error` events. -/

/-- C1, evaluated at the failing inputs: a `files_needed` answer on the
only permitted iteration produces zero terminal events, and a builder
parse failure produces two. -/
theorem c1_terminal_event_accounting :
    ((runCycle cfgOne orcFilesForever 3).1.countP Event.isTerminal) = 0 ∧
    ((runCycle cfgOne orcBuilderParseFail 3).1.countP Event.isTerminal) = 2 := by decide

end Checkmate

